import Mathlib

/-
Formal model of the optimshine battery-charging optimizer.

Each definition below is a shallow embedding of a function from the
repository (optimshine/optim_shine.py, optimshine/optim_config.py,
optimshine/api_weather.py).  Timestamps are modelled as integers
(seconds since the epoch), prices and cloud-cover fractions as
rationals, and Python exceptions as an explicit error result type.
Network calls are factored out: every embedded function takes the data
a successful HTTP response would have produced as an argument, and the
branches that depend on a response failing are modelled by the
corresponding boolean/Option arguments.
-/

/-- Python exceptions that the modelled code can raise. -/
inductive PyError where
  | attributeError
  | stopIteration
  | runtimeError
deriving DecidableEq

/-- Result of running a piece of Python code: a value or a raised exception. -/
inductive PyResult (α : Type) where
  | ok (value : α)
  | error (e : PyError)
deriving DecidableEq

/-
`OptimShine._check_weather` (optim_shine.py lines 115-127): counts the
cloud samples strictly below 0.75 and sets `not_cloudy` to True exactly
when that count exceeds half the number of samples (Python float
division `len(...)/2`).  The counting loop is `List.countP`.
-/

/-- The `not_cloudy` flag computed by `_check_weather` from
`weather_data["low_clouds_data"]`. -/
def check_weather_not_cloudy (low_clouds_data : List ℚ) : Bool :=
  decide (((low_clouds_data.countP (fun sample => decide (sample < 0.75))) : ℚ) >
    (low_clouds_data.length : ℚ) / 2)

/-
`OptimConfig` scheduler event listeners (optim_config.py lines 65-117)
and the initial state set up by `scheduler_setup` (lines 153-155).
The four APScheduler events mutate the two sets `running_jobs` and
`missed_jobs`.
-/

/-- The two job-id sets maintained by the scheduler listeners. -/
structure JobSets where
  running_jobs : Finset String
  missed_jobs : Finset String

/-- The four scheduler events wired up in `scheduler_setup`. -/
inductive SchedEvent where
  | submitted (job_id : String)
  | missed (job_id : String)
  | executed (job_id : String)
  | errored (job_id : String)

/-- One listener invocation: `_job_running_listener` for submitted events,
`_job_missed_listener` for missed, `_job_finished_listener` for executed,
`_job_error_listener` for errored. -/
def job_listener (s : JobSets) : SchedEvent → JobSets
  | SchedEvent.submitted j =>
      if j ∈ s.missed_jobs then { s with missed_jobs := s.missed_jobs.erase j }
      else { s with running_jobs := insert j s.running_jobs }
  | SchedEvent.missed j =>
      if j ∉ s.running_jobs then { s with missed_jobs := insert j s.missed_jobs }
      else { s with running_jobs := s.running_jobs.erase j }
  | SchedEvent.executed j => { s with running_jobs := s.running_jobs.erase j }
  | SchedEvent.errored j => { s with running_jobs := s.running_jobs.erase j }

/-- The empty initial state created by `scheduler_setup`. -/
def scheduler_setup_state : JobSets := ⟨∅, ∅⟩

/-- The state after a sequence of scheduler events, starting from the
initial empty sets. -/
def run_listeners (events : List SchedEvent) : JobSets :=
  events.foldl job_listener scheduler_setup_state

/-
`OptimShine._get_judge_factors` (optim_shine.py lines 159-171): the
minimum-price scan over `self.rce_prices`.  The update branch of the
loop evaluates `self.get_timestamp_hour(...)`, but no class in the
inheritance chain defines `get_timestamp_hour` (only
`ApiWeather._get_timestamp_hour` exists), so that branch raises
AttributeError before `self.min_price` or `self.min_price_timestamp`
can be assigned.  Consequently the attribute `min_price_timestamp` is
never created by this code; the debug log line after the loop reads
`self.min_price_timestamp` and raises AttributeError itself when the
attribute is absent.  `prev_timestamp` models a pre-existing value of
the attribute (always `none` in the real object, since the only
assignment to it is unreachable).
-/

/-- The `for quarter, price in self.rce_prices.items()` loop of
`_get_judge_factors`, followed by the debug log that reads
`self.min_price_timestamp`. -/
def get_judge_factors_loop (prev_timestamp : Option Int) :
    List ℚ → ℚ → PyResult (ℚ × Int)
  | [], min_price =>
      match prev_timestamp with
      | some t => PyResult.ok (min_price, t)
      | none => PyResult.error PyError.attributeError
  | price :: rest, min_price =>
      if price < min_price then PyResult.error PyError.attributeError
      else get_judge_factors_loop prev_timestamp rest min_price

/-- The minimum-price computation of `_get_judge_factors`:
`next(iter(...))` on an empty mapping raises StopIteration; otherwise
the loop runs over all entries with the first value as the initial
minimum. -/
def get_judge_factors_min (prev_timestamp : Option Int) (prices : List ℚ) :
    PyResult (ℚ × Int) :=
  match prices with
  | [] => PyResult.error PyError.stopIteration
  | p :: rest => get_judge_factors_loop prev_timestamp (p :: rest) p

/-
`OptimShine.optim_judge` (optim_shine.py lines 414-419): the choice of
`soc_check_date` from the judge time and the sunrise timestamp.
-/

/-- `soc_check_date` as computed by `optim_judge`: `judge_date + 2min`
when `judge_date.timestamp() > sunrise_time`, otherwise
`sunrise_time`. -/
def optim_judge_soc_check_date (judge_ts sunrise_time : Int) : Int :=
  if judge_ts > sunrise_time then judge_ts + 120 else sunrise_time

/-
`OptimShine.optim_charge_battery` (optim_shine.py lines 195-245).
`CHARGE_MODES` is the module-level dict (lines 22-27).  The vendor API
calls are modelled by the environment: `login_ok` is the result of
`login_shine()` when the token has expired, `get_ok` / `set_ok` /
`get_validation_ok` are the boolean results of the first
`get_setting_value`, of `set_charge_current`, and of the validating
`get_setting_value`.  `setting_value` is the device register read by
the first get (tenths of an ampere, divided by 10 before comparison),
`written_value` the register read back after the set command.
-/

/-- The `CHARGE_MODES` mapping from mode name to target charge current. -/
def CHARGE_MODES : List (String × Int) :=
  [("no_charge", 1), ("slow_charge", 30), ("normal_charge", 60), ("fast_charge", 90)]

/-- Outcome of `optim_charge_battery`: the device register on return and
the number of `set_charge_current` commands that were issued. -/
structure ChargeOutcome where
  setting_tenths : Int
  set_commands : Nat
deriving DecidableEq

/-- Environment of one `optim_charge_battery` invocation. -/
structure ChargeEnv where
  time_now : Int
  token_ttl : Int
  login_ok : Bool
  get_ok : Bool
  set_ok : Bool
  get_validation_ok : Bool
deriving DecidableEq

/-- `optim_charge_battery`, with the remote device register passed in as
`setting_value` (before) and `written_value` (after a set command). -/
def optim_charge_battery (env : ChargeEnv) (mode : String)
    (setting_value written_value : Int) : PyResult ChargeOutcome :=
  if env.token_ttl < env.time_now ∧ env.login_ok = false then
    PyResult.error PyError.runtimeError
  else
    match CHARGE_MODES.lookup mode with
    | none => PyResult.error PyError.attributeError
    | some target =>
      if env.get_ok = false then PyResult.error PyError.runtimeError
      else if (setting_value : ℚ) / 10 = (target : ℚ) then
        PyResult.ok ⟨setting_value, 0⟩
      else if env.set_ok = false then PyResult.error PyError.runtimeError
      else if env.get_validation_ok = false then PyResult.error PyError.runtimeError
      else if ¬((written_value : ℚ) / 10 = (target : ℚ)) then
        PyResult.error PyError.runtimeError
      else PyResult.ok ⟨written_value, 1⟩

/-
Scheduled jobs.  `add_job(..., id=..., run_date=..., kwargs=...)` calls
are modelled as `Job` values; within one run of `_optim_strategy` every
job id is distinct, so the scheduled set is a list.
-/

/-- The action a scheduled job will run. -/
inductive JobAction where
  | socCheck (inverter : String)
  | chargeBattery (inverter : String) (mode : String)
deriving DecidableEq

/-- One `scheduler.add_job` registration. -/
structure Job where
  job_id : String
  run_date : Int
  action : JobAction
deriving DecidableEq

/-
`OptimShine.optim_soc_check` (optim_shine.py lines 264-302).  `soc_value`
is `float(self.device_value)` when `get_device_value` succeeded, `none`
when it failed; `charge_ok` records whether the nested
`optim_charge_battery` call returned normally (a raise propagates).
-/

/-- Environment of one `optim_soc_check` invocation. -/
structure SocEnv where
  time_now : Int
  token_ttl : Int
  login_ok : Bool
  soc_value : Option ℚ
  charge_ok : Bool
deriving DecidableEq

/-- Outcome of `optim_soc_check`: which charging mode was requested via
`optim_charge_battery`, and the re-scheduled soc-check job, if any. -/
structure SocResult where
  charge_mode : String
  rescheduled : Option Job
deriving DecidableEq

/-- `optim_soc_check`. -/
def optim_soc_check (env : SocEnv) (inverter : String) (optim_date_ts : Int) :
    PyResult SocResult :=
  if env.token_ttl < env.time_now ∧ env.login_ok = false then
    PyResult.error PyError.runtimeError
  else
    match env.soc_value with
    | none => PyResult.error PyError.runtimeError
    | some soc =>
      if soc < 50 then
        if env.charge_ok = false then PyResult.error PyError.runtimeError
        else
          let next_soc_check_date := env.time_now + 1800
          if next_soc_check_date < optim_date_ts - 180 then
            PyResult.ok ⟨"slow_charge",
              some ⟨"optim_soc_check_inv_" ++ inverter, next_soc_check_date,
                JobAction.socCheck inverter⟩⟩
          else PyResult.ok ⟨"slow_charge", none⟩
      else
        if env.charge_ok = false then PyResult.error PyError.runtimeError
        else PyResult.ok ⟨"no_charge", none⟩

/-
`OptimShine._optim_strategy` (optim_shine.py lines 317-387).  The plan
fields mirror the instance attributes; `none` models a `None` value.
Note that the guard `if not self.min_price` is also taken when
`min_price` equals 0 (Python truthiness of the float 0.0).  The result
is the returned boolean, the plan attributes after the call, and the
list of jobs registered with the scheduler during the call.
-/

/-- The optimization plan attributes consumed by `_optim_strategy`. -/
structure OptimPlan where
  optim : Bool
  optim_date : Option Int
  soc_check_date : Option Int
  min_price : Option ℚ
deriving DecidableEq

/-- The two timestamps of `self.weather_data` read by `_optim_strategy`. -/
structure WeatherTimes where
  sunrise_time : Int
  sunset_time : Int
deriving DecidableEq

/-- The jobs registered for one inverter by the loop body of
`_optim_strategy` (lines 350-385): the conditional soc check, the main
charge action, and the conditional end-of-day charge action. -/
def strategy_inverter_jobs (od scd : Int) (charging_mode : String)
    (w : WeatherTimes) (inv : String) : List Job :=
  (if ¬(scd > od - 180) then
    [⟨"optim_soc_check_inv_" ++ inv, scd, JobAction.socCheck inv⟩]
  else []) ++
  [⟨"optim_charge_battery_inv_" ++ inv, od, JobAction.chargeBattery inv charging_mode⟩] ++
  (if ¬(w.sunrise_time ≥ w.sunset_time) then
    [⟨"eod_charge_battery_inv_" ++ inv, w.sunset_time,
      JobAction.chargeBattery inv "slow_charge"⟩]
  else [])

/-- `_optim_strategy`. -/
def optim_strategy (plan : OptimPlan) (inverters : List String)
    (w : WeatherTimes) (time_now : Int) : Bool × OptimPlan × List Job :=
  if plan.optim = false then (true, plan, [])
  else
    match plan.optim_date, plan.soc_check_date with
    | some od, some scd0 =>
      match plan.min_price with
      | none => (false, plan, [])
      | some mp =>
        if mp = 0 then (false, plan, [])
        else if inverters = [] then (false, plan, [])
        else
          let charging_mode := if mp < 0 then "fast_charge" else "normal_charge"
          if time_now > od then
            (true, { plan with optim := false, soc_check_date := none, optim_date := none }, [])
          else
            let scd := if time_now > scd0 then time_now + 30 else scd0
            (true, { plan with soc_check_date := some scd },
              inverters.flatMap (strategy_inverter_jobs od scd charging_mode w))
    | _, _ => (false, plan, [])

/-
`ApiWeather._get_timestamp_hour` (api_weather.py lines 15-22) and
`ApiWeather.get_weather_data` (lines 44-148).  A clock time parsed with
`"%I:%M:%S %p"` is a `TimeOfDay`; dates are epoch day numbers.  The two
HTTP calls are factored out: the parsed sunrise/sunset response and the
meteorogram response fields are arguments.  The string comparison
`self.sunrise == self.sunset` becomes equality of the parsed values.
-/

/-- A clock time in 12-hour format, as parsed by `strptime` with
`"%I:%M:%S %p"` (`hour12` ranges over 1..12). -/
structure TimeOfDay where
  hour12 : Nat
  minute : Nat
  second : Nat
  is_pm : Bool
deriving DecidableEq

/-- The 24-hour value of a parsed 12-hour time (`12:xx AM` is hour 0,
`12:xx PM` is hour 12). -/
def hour24 (t : TimeOfDay) : Nat :=
  t.hour12 % 12 + (if t.is_pm then 12 else 0)

/-- `_get_timestamp_hour`: zero out minutes and seconds and return the
UTC epoch timestamp of the hour. -/
def get_timestamp_hour (day : Int) (t : TimeOfDay) : Int :=
  day * 86400 + (hour24 t : Int) * 3600

/-- The weather window assembled by `get_weather_data` into
`self.weather_data` (the constant `date` field is omitted). -/
structure WeatherData where
  first_sample_time : Int
  interval : Int
  low_clouds_data : List ℚ
  sunrise_time : Int
  sunset_time : Int
deriving DecidableEq

/-- `get_weather_data`, after both HTTP requests succeeded.  `%` on
nonnegative values with a positive interval agrees with Python `%`; the
slice `[low_clouds_data[i+first_sample] for i in range(samples_num)]`
is written with `drop`/`take`, which agrees with the comprehension
whenever the accessed indices are in range. -/
def get_weather_data (day : Int) (sunrise sunset : TimeOfDay)
    (first_sample_time interval : Int) (low_clouds_data : List ℚ) :
    Option WeatherData :=
  let sunrise_hour_ts := get_timestamp_hour day sunrise
  let sunset_base := get_timestamp_hour day sunset
  let sunset_adjusted :=
    if sunrise_hour_ts > sunset_base then sunset_base + 86400 else sunset_base
  let sunset_hour_ts := sunset_adjusted + 3600
  if sunrise_hour_ts < first_sample_time then none
  else if low_clouds_data = [] then none
  else if sunrise = sunset then
    some ⟨first_sample_time, interval, low_clouds_data.take 24,
      sunrise_hour_ts, sunset_hour_ts⟩
  else if ¬(sunrise_hour_ts % interval = 0 ∧ sunset_hour_ts % interval = 0 ∧
      first_sample_time % interval = 0) then none
  else
    let first_sample := (sunrise_hour_ts - first_sample_time) / interval
    let last_sample := (sunset_hour_ts - first_sample_time) / interval
    let samples_num := last_sample - first_sample
    some ⟨sunrise_hour_ts, interval,
      (low_clouds_data.drop first_sample.toNat).take samples_num.toNat,
      sunrise_hour_ts, sunset_hour_ts⟩

/-- C9: `_check_weather` sets `not_cloudy` to true exactly when the count
of cloud samples strictly below 0.75 is strictly greater than half the
number of samples, and to false otherwise (a tie at exactly half yields
false). -/
theorem not_cloudy_majority_characterization (l : List ℚ) (_h : l ≠ []) :
    check_weather_not_cloudy l = true ↔
      2 * l.countP (fun sample => decide (sample < 0.75)) > l.length := by
  unfold check_weather_not_cloudy
  rw [decide_eq_true_eq, gt_iff_lt, gt_iff_lt,
    div_lt_iff₀ (by norm_num : (0:ℚ) < 2)]
  rw [show ((l.countP (fun sample => decide (sample < 0.75)) : ℚ) * 2) =
      ((l.countP (fun sample => decide (sample < 0.75)) * 2 : ℕ) : ℚ) by
    push_cast; ring]
  rw [Nat.cast_lt]
  omega

/-- Witness for C9 at the spec's own example `[0.038, 0.172, 0.115, 0.9]`. -/
theorem not_cloudy_majority_witness :
    ([0.038, 0.172, 0.115, 0.9] : List ℚ) ≠ [] ∧
      (check_weather_not_cloudy [0.038, 0.172, 0.115, 0.9] = true ↔
        2 * List.countP (fun sample => decide (sample < 0.75))
          ([0.038, 0.172, 0.115, 0.9] : List ℚ) >
          List.length ([0.038, 0.172, 0.115, 0.9] : List ℚ)) :=
  ⟨by decide, not_cloudy_majority_characterization _ (by decide)⟩

/-- One listener step preserves disjointness of the running and missed sets. -/
lemma job_listener_keeps_disjoint (s : JobSets) (e : SchedEvent)
    (h : ∀ x, x ∈ s.running_jobs → x ∉ s.missed_jobs) :
    ∀ x, x ∈ (job_listener s e).running_jobs →
      x ∉ (job_listener s e).missed_jobs := by
  cases e with
  | submitted j =>
      intro x hr hm
      by_cases hj : j ∈ s.missed_jobs
      · simp only [job_listener, if_pos hj] at hr hm
        exact h x hr (Finset.mem_of_mem_erase hm)
      · simp only [job_listener, if_neg hj] at hr hm
        rcases Finset.mem_insert.mp hr with h1 | h1
        · exact hj (h1 ▸ hm)
        · exact h x h1 hm
  | missed j =>
      intro x hr hm
      by_cases hj : j ∈ s.running_jobs
      · simp only [job_listener, if_neg (not_not_intro hj)] at hr hm
        exact h x (Finset.mem_of_mem_erase hr) hm
      · simp only [job_listener, if_pos hj] at hr hm
        rcases Finset.mem_insert.mp hm with h1 | h1
        · exact hj (h1 ▸ hr)
        · exact h x hr h1
  | executed j =>
      intro x hr hm
      exact h x (Finset.mem_of_mem_erase hr) hm
  | errored j =>
      intro x hr hm
      exact h x (Finset.mem_of_mem_erase hr) hm

/-- Folding the listeners over any event sequence preserves disjointness. -/
lemma foldl_listeners_disjoint (events : List SchedEvent) :
    ∀ s : JobSets, (∀ x, x ∈ s.running_jobs → x ∉ s.missed_jobs) →
      ∀ x, x ∈ (events.foldl job_listener s).running_jobs →
        x ∉ (events.foldl job_listener s).missed_jobs := by
  induction events with
  | nil => intro s h; exact h
  | cons e es ih => intro s h; exact ih _ (job_listener_keeps_disjoint s e h)

/-- C10: starting from the empty sets created by `scheduler_setup`, no
sequence of scheduler events ever puts a job id in both `running_jobs`
and `missed_jobs`. -/
theorem running_missed_jobs_disjoint (events : List SchedEvent) :
    (run_listeners events).running_jobs ∩ (run_listeners events).missed_jobs = ∅ := by
  apply Finset.eq_empty_iff_forall_not_mem.mpr
  intro x hx
  rw [Finset.mem_inter] at hx
  refine foldl_listeners_disjoint events scheduler_setup_state ?_ x hx.1 hx.2
  intro y hy
  simp [scheduler_setup_state] at hy

/-- The judge-factor loop with no pre-existing `min_price_timestamp`
attribute always raises AttributeError. -/
lemma get_judge_factors_loop_none (l : List ℚ) :
    ∀ m : ℚ, get_judge_factors_loop none l m =
      PyResult.error PyError.attributeError := by
  induction l with
  | nil => intro m; rfl
  | cons p ps ih =>
      intro m
      by_cases hp : p < m
      · simp [get_judge_factors_loop, hp]
      · simp [get_judge_factors_loop, hp, ih m]

/-- C1: for every non-empty price mapping, the minimum-price scan of
`_get_judge_factors` raises AttributeError — either when a later price
is strictly below the first (the update branch calls the nonexistent
method `self.get_timestamp_hour`) or, when no update happens, at the
debug log that reads the never-assigned `self.min_price_timestamp`.
The function therefore never succeeds, contradicting the claim. -/
theorem get_judge_factors_always_attribute_error (prices : List ℚ)
    (h : prices ≠ []) :
    get_judge_factors_min none prices =
      PyResult.error PyError.attributeError := by
  cases prices with
  | nil => exact absurd rfl h
  | cons p rest => exact get_judge_factors_loop_none (p :: rest) p

/-- Witness for C1 at the price list of the repository's own test
`test_get_judge_factors_pass` (which expects success with
`min_price = 59.58`). -/
theorem get_judge_factors_attribute_error_witness :
    ([439.58, 449.58, 59.58] : List ℚ) ≠ [] ∧
      get_judge_factors_min none [439.58, 449.58, 59.58] =
        PyResult.error PyError.attributeError :=
  ⟨by decide, get_judge_factors_always_attribute_error _ (by decide)⟩

/-- C5 counterexample: `optim_judge` does not compute
`max(judge_time + 2min, sunrise_time)` — at `judge_time = sunrise_time = 0`
the code yields `0` (the sunrise), not `120`. -/
theorem soc_check_date_not_max_formula :
    optim_judge_soc_check_date 0 0 ≠ max (0 + 120) 0 := by decide

/-- C5 (amended): `soc_check_date = judge_time + 2min` when
`judge_time > sunrise_time`, else `sunrise_time`; this agrees with
`max(judge_time + 2min, sunrise_time)` except when
`sunrise_time - 2min < judge_time ≤ sunrise_time`, where the result is
`sunrise_time`. -/
theorem judge_soc_check_date_characterization (j s : Int) :
    (j > s → optim_judge_soc_check_date j s = j + 120) ∧
    (j ≤ s → optim_judge_soc_check_date j s = s) ∧
    ((j ≤ s - 120 ∨ j > s) → optim_judge_soc_check_date j s = max (j + 120) s) := by
  unfold optim_judge_soc_check_date
  refine ⟨fun h => if_pos h, fun h => if_neg (not_lt.mpr h), fun h => ?_⟩
  rcases h with h | h
  · rw [if_neg (not_lt.mpr (by omega : j ≤ s)),
      max_eq_right (by omega : j + 120 ≤ s)]
  · rw [if_pos h, max_eq_left (by omega : s ≤ j + 120)]

/-- Witness for C5's amended theorem: a judge run before sunrise yields
the sunrise timestamp. -/
theorem judge_soc_check_date_witness :
    (0 : Int) ≤ 100 ∧ optim_judge_soc_check_date 0 100 = 100 :=
  ⟨by decide, (judge_soc_check_date_characterization 0 100).2.1 (by decide)⟩

/-- On the success path (all validations pass and the window is not yet
missed), `_optim_strategy` rebases a stale `soc_check_date` and
registers the per-inverter jobs. -/
lemma optim_strategy_success_path (plan : OptimPlan) (inverters : List String)
    (w : WeatherTimes) (time_now od scd0 : Int) (mp : ℚ)
    (hoptim : plan.optim = true) (hod : plan.optim_date = some od)
    (hscd : plan.soc_check_date = some scd0) (hmp : plan.min_price = some mp)
    (hmp0 : mp ≠ 0) (hinv : inverters ≠ []) (hnm : ¬(time_now > od)) :
    optim_strategy plan inverters w time_now =
      (true,
        { plan with soc_check_date := some (if time_now > scd0 then time_now + 30 else scd0) },
        inverters.flatMap (strategy_inverter_jobs od
          (if time_now > scd0 then time_now + 30 else scd0)
          (if mp < 0 then "fast_charge" else "normal_charge") w)) := by
  obtain ⟨po, pod, pscd, pmp⟩ := plan
  simp only at hoptim hod hscd hmp
  subst hoptim hod hscd hmp
  simp [optim_strategy, hmp0, hinv, hnm]

/-- C3 counterexample: a plan whose `min_price` is set to 0 and whose
`optim_date` has already passed makes `_optim_strategy` return failure
without clearing the plan (the `not self.min_price` guard fires first),
refuting the claim that every set `min_price` yields the missed-window
success path. -/
theorem missed_window_zero_min_price_fails :
    (100 : Int) > 0 ∧
      optim_strategy ⟨true, some 0, some (-100), some 0⟩ ["INV"] ⟨0, 0⟩ 100 =
        (false, ⟨true, some 0, some (-100), some 0⟩, []) := by decide

/-- C3 (amended): with `optim = true`, both dates set, `min_price` set
and nonzero, and a non-empty inverter list, a current time past
`optim_date` makes `_optim_strategy` return success, clear `optim` and
both dates, and schedule nothing. -/
theorem missed_window_clears_plan (plan : OptimPlan) (inverters : List String)
    (w : WeatherTimes) (time_now od scd0 : Int) (mp : ℚ)
    (hoptim : plan.optim = true) (hod : plan.optim_date = some od)
    (hscd : plan.soc_check_date = some scd0) (hmp : plan.min_price = some mp)
    (hmp0 : mp ≠ 0) (hinv : inverters ≠ []) (hmissed : time_now > od) :
    optim_strategy plan inverters w time_now =
      (true,
        { optim := false, optim_date := none, soc_check_date := none, min_price := plan.min_price },
        []) := by
  obtain ⟨po, pod, pscd, pmp⟩ := plan
  simp only at hoptim hod hscd hmp
  subst hoptim hod hscd hmp
  simp [optim_strategy, hmp0, hinv, hmissed]

/-- Witness for C3's amended theorem at a concrete missed plan. -/
theorem missed_window_clears_plan_witness :
    (100 : Int) > 0 ∧
      optim_strategy ⟨true, some 0, some (-100), some 1⟩ ["INV"] ⟨0, 0⟩ 100 =
        (true, ⟨false, none, none, some 1⟩, []) :=
  ⟨by decide, missed_window_clears_plan ⟨true, some 0, some (-100), some 1⟩
    ["INV"] ⟨0, 0⟩ 100 0 (-100) 1 rfl rfl rfl rfl (by norm_num) (by simp)
    (by decide)⟩

/-- C4 counterexample: with `min_price = 0` (and the window not missed)
`_optim_strategy` fails its own `not self.min_price` validation, returns
failure and schedules no charge action at all — refuting the claim that
a zero `min_price` yields a `normal_charge` action at `optim_date`. -/
theorem zero_min_price_strategy_fails :
    (0 : Int) ≤ 1000 ∧
      optim_strategy ⟨true, some 1000, some 500, some 0⟩ ["INV"] ⟨0, 0⟩ 0 =
        (false, ⟨true, some 1000, some 500, some 0⟩, []) := by decide

/-- C4 (amended): with `optim = true`, both dates set, a nonzero
`min_price` and the window not missed, the main charge action is
scheduled at `optim_date` for every inverter with mode `fast_charge`
when `min_price < 0` and `normal_charge` when `min_price > 0`; a zero
`min_price` instead fails the strategy's validation. -/
theorem main_charge_scheduled_with_mode (plan : OptimPlan)
    (inverters : List String) (w : WeatherTimes) (time_now od scd0 : Int)
    (mp : ℚ) (inv : String)
    (hoptim : plan.optim = true) (hod : plan.optim_date = some od)
    (hscd : plan.soc_check_date = some scd0) (hmp : plan.min_price = some mp)
    (hmp0 : mp ≠ 0) (hnm : ¬(time_now > od)) (hmem : inv ∈ inverters) :
    (optim_strategy plan inverters w time_now).1 = true ∧
      Job.mk ("optim_charge_battery_inv_" ++ inv) od
          (JobAction.chargeBattery inv
            (if mp < 0 then "fast_charge" else "normal_charge"))
        ∈ (optim_strategy plan inverters w time_now).2.2 := by
  have hinv : inverters ≠ [] := by
    intro hnil
    rw [hnil] at hmem
    exact List.not_mem_nil inv hmem
  rw [optim_strategy_success_path plan inverters w time_now od scd0 mp
    hoptim hod hscd hmp hmp0 hinv hnm]
  refine ⟨rfl, List.mem_flatMap.mpr ⟨inv, hmem, ?_⟩⟩
  unfold strategy_inverter_jobs
  simp

/-- Witness for C4's amended theorem: a negative price schedules a
`fast_charge` action at `optim_date`. -/
theorem main_charge_scheduled_witness :
    (0 : Int) ≤ 1000 ∧
      Job.mk ("optim_charge_battery_inv_" ++ "INV") 1000
          (JobAction.chargeBattery "INV"
            (if (-5 : ℚ) < 0 then "fast_charge" else "normal_charge"))
        ∈ (optim_strategy ⟨true, some 1000, some 500, some (-5)⟩ ["INV"]
            ⟨0, 0⟩ 0).2.2 :=
  ⟨by decide, (main_charge_scheduled_with_mode
    ⟨true, some 1000, some 500, some (-5)⟩ ["INV"] ⟨0, 0⟩ 0 1000 500 (-5) "INV"
    rfl rfl rfl rfl (by norm_num) (by decide) (by simp)).2⟩

/-- C6 counterexample: with `soc_check_date` exactly 180 seconds before
`optim_date` (820 = 1000 - 180), the SOC check IS scheduled — the guard
is `not (soc_check_date > optim_date - 180)`, which admits equality —
refuting the claim that the check is skipped at exactly 180 seconds. -/
theorem soc_check_scheduled_at_exact_180 :
    (820 : Int) = 1000 - 180 ∧
      Job.mk ("optim_soc_check_inv_" ++ "INV") 820 (JobAction.socCheck "INV")
        ∈ (optim_strategy ⟨true, some 1000, some 820, some 1⟩ ["INV"]
            ⟨5, 5⟩ 0).2.2 := by decide

/-- C6 (amended): on the success path the SOC-check action is scheduled
at the (possibly rebased) `soc_check_date` if and only if it is at least
180 seconds before `optim_date`; only with strictly less than 180
seconds of lead time is the check skipped. -/
theorem soc_check_schedule_iff_lead_time (plan : OptimPlan)
    (inverters : List String) (w : WeatherTimes) (time_now od scd0 scd : Int)
    (mp : ℚ) (inv : String)
    (hoptim : plan.optim = true) (hod : plan.optim_date = some od)
    (hscd : plan.soc_check_date = some scd0) (hmp : plan.min_price = some mp)
    (hmp0 : mp ≠ 0) (hnm : ¬(time_now > od)) (hmem : inv ∈ inverters)
    (hreb : scd = if time_now > scd0 then time_now + 30 else scd0) :
    Job.mk ("optim_soc_check_inv_" ++ inv) scd (JobAction.socCheck inv)
        ∈ (optim_strategy plan inverters w time_now).2.2 ↔
      scd ≤ od - 180 := by
  have hinv : inverters ≠ [] := by
    intro hnil
    rw [hnil] at hmem
    exact List.not_mem_nil inv hmem
  rw [optim_strategy_success_path plan inverters w time_now od scd0 mp
    hoptim hod hscd hmp hmp0 hinv hnm, ← hreb]
  constructor
  · intro hmem2
    rcases List.mem_flatMap.mp hmem2 with ⟨inv2, hinv2, hjob⟩
    unfold strategy_inverter_jobs at hjob
    rcases List.mem_append.mp hjob with hj | hj
    · rcases List.mem_append.mp hj with hj1 | hj2
      · by_cases hc : scd > od - 180
        · rw [if_neg (not_not_intro hc)] at hj1
          exact absurd hj1 (List.not_mem_nil _)
        · omega
      · rw [List.mem_singleton] at hj2
        simp at hj2
    · by_cases he : w.sunrise_time ≥ w.sunset_time
      · rw [if_neg (not_not_intro he)] at hj
        exact absurd hj (List.not_mem_nil _)
      · rw [if_pos he, List.mem_singleton] at hj
        simp at hj
  · intro hle
    refine List.mem_flatMap.mpr ⟨inv, hmem, ?_⟩
    unfold strategy_inverter_jobs
    refine List.mem_append.mpr (Or.inl (List.mem_append.mpr (Or.inl ?_)))
    rw [if_pos (not_lt.mpr hle)]
    exact List.mem_singleton.mpr rfl

/-- Witness for C6's amended theorem at a plan with plenty of lead time. -/
theorem soc_check_schedule_iff_witness :
    (500 : Int) ≤ 1000 - 180 ∧
      (Job.mk ("optim_soc_check_inv_" ++ "INV") 500 (JobAction.socCheck "INV")
          ∈ (optim_strategy ⟨true, some 1000, some 500, some 1⟩ ["INV"]
              ⟨5, 5⟩ 0).2.2 ↔
        (500 : Int) ≤ 1000 - 180) :=
  ⟨by decide, soc_check_schedule_iff_lead_time
    ⟨true, some 1000, some 500, some 1⟩ ["INV"] ⟨5, 5⟩ 0 1000 500 500 1 "INV"
    rfl rfl rfl rfl (by norm_num) (by decide) (by simp) (by decide)⟩

/-- C2 counterexample: on a polar date the weather source reports equal
sunrise and sunset, yet `get_weather_data` emits
`sunset_time = sunrise_time + 3600` ("first full hour after sunset"),
so `_optim_strategy` still schedules the end-of-day `slow_charge`
action — refuting the claim that polar dates schedule none. -/
theorem polar_day_eod_still_scheduled :
    get_weather_data 0 ⟨6, 30, 0, false⟩ ⟨6, 30, 0, false⟩ 21600 3600 [0] =
      some ⟨21600, 3600, [0], 21600, 25200⟩ ∧
      Job.mk ("eod_charge_battery_inv_" ++ "INV") 25200
          (JobAction.chargeBattery "INV" "slow_charge")
        ∈ (optim_strategy ⟨true, some 30000, some 22000, some 1⟩ ["INV"]
            ⟨21600, 25200⟩ 0).2.2 := by decide

/-- C2 (amended): on the success path the end-of-day `slow_charge`
action at `sunset_time` is scheduled for an inverter if and only if
`sunrise_time < sunset_time`; and every weather window produced by
`get_weather_data` from equal reported sunrise and sunset (polar
day/night) has `sunset_time = sunrise_time + 3600`, so the ordering is
still normal and the end-of-day action is scheduled on polar dates
too. -/
theorem eod_slow_charge_schedule_characterization :
    (∀ (plan : OptimPlan) (inverters : List String) (w : WeatherTimes)
      (time_now od scd0 : Int) (mp : ℚ) (inv : String),
      plan.optim = true → plan.optim_date = some od →
      plan.soc_check_date = some scd0 → plan.min_price = some mp →
      mp ≠ 0 → ¬(time_now > od) → inv ∈ inverters →
      (Job.mk ("eod_charge_battery_inv_" ++ inv) w.sunset_time
          (JobAction.chargeBattery inv "slow_charge")
        ∈ (optim_strategy plan inverters w time_now).2.2 ↔
        w.sunrise_time < w.sunset_time)) ∧
    (∀ (day : Int) (t : TimeOfDay) (first_sample_time interval : Int)
      (clouds : List ℚ) (wd : WeatherData),
      get_weather_data day t t first_sample_time interval clouds = some wd →
      wd.sunset_time = wd.sunrise_time + 3600) := by
  constructor
  · intro plan inverters w time_now od scd0 mp inv hoptim hod hscd hmp hmp0 hnm hmem
    have hinv : inverters ≠ [] := by
      intro hnil
      rw [hnil] at hmem
      exact List.not_mem_nil inv hmem
    rw [optim_strategy_success_path plan inverters w time_now od scd0 mp
      hoptim hod hscd hmp hmp0 hinv hnm]
    constructor
    · intro hmem2
      rcases List.mem_flatMap.mp hmem2 with ⟨inv2, hinv2, hjob⟩
      unfold strategy_inverter_jobs at hjob
      rcases List.mem_append.mp hjob with hj | hj
      · rcases List.mem_append.mp hj with hj1 | hj2
        · by_cases hc : (if time_now > scd0 then time_now + 30 else scd0) > od - 180
          · rw [if_neg (not_not_intro hc)] at hj1
            exact absurd hj1 (List.not_mem_nil _)
          · rw [if_pos hc, List.mem_singleton] at hj1
            simp at hj1
        · rw [List.mem_singleton] at hj2
          by_cases hneg : mp < 0
          · rw [if_pos hneg] at hj2
            simp at hj2
          · rw [if_neg hneg] at hj2
            simp at hj2
      · by_cases he : w.sunrise_time ≥ w.sunset_time
        · rw [if_neg (not_not_intro he)] at hj
          exact absurd hj (List.not_mem_nil _)
        · exact not_le.mp he
    · intro hlt
      refine List.mem_flatMap.mpr ⟨inv, hmem, ?_⟩
      unfold strategy_inverter_jobs
      refine List.mem_append.mpr (Or.inr ?_)
      rw [if_pos (not_le.mpr hlt)]
      exact List.mem_singleton.mpr rfl
  · intro day t first_sample_time interval clouds wd h
    simp only [get_weather_data, lt_self_iff_false, if_false,
      eq_self_iff_true, if_true] at h
    split_ifs at h with h1 h2 <;>
      first
        | exact Option.noConfusion h
        | (injection h with h3; rw [← h3])

/-- Witness for C2's amended theorem at a concrete polar window. -/
theorem eod_slow_charge_schedule_witness :
    ((⟨21600, 3600, [0], 21600, 25200⟩ : WeatherData).sunset_time =
      (⟨21600, 3600, [0], 21600, 25200⟩ : WeatherData).sunrise_time + 3600) ∧
      (Job.mk ("eod_charge_battery_inv_" ++ "INV") 25200
          (JobAction.chargeBattery "INV" "slow_charge")
        ∈ (optim_strategy ⟨true, some 30000, some 22000, some 1⟩ ["INV"]
            ⟨21600, 25200⟩ 0).2.2 ↔ (21600 : Int) < 25200) :=
  ⟨eod_slow_charge_schedule_characterization.2 0 ⟨6, 30, 0, false⟩ 21600 3600
      [0] ⟨21600, 3600, [0], 21600, 25200⟩ (by decide),
    eod_slow_charge_schedule_characterization.1
      ⟨true, some 30000, some 22000, some 1⟩ ["INV"] ⟨21600, 25200⟩ 0 30000
      22000 1 "INV" rfl rfl rfl rfl (by norm_num) (by decide) (by simp)⟩

/-- C7: with a valid session, a readable SOC and a normally returning
charge call, `optim_soc_check` invokes `no_charge` and never
re-schedules when SOC is at least 50, and invokes `slow_charge` and
re-schedules itself at `now + 30min` under the per-inverter id exactly
when that next check time is strictly more than 180 seconds before
`optim_date`. -/
theorem optim_soc_check_behaviour (env : SocEnv) (inverter : String)
    (optim_date_ts : Int) (soc : ℚ)
    (hsess : ¬(env.token_ttl < env.time_now ∧ env.login_ok = false))
    (hsoc : env.soc_value = some soc) (hcharge : env.charge_ok = true) :
    (50 ≤ soc → optim_soc_check env inverter optim_date_ts =
      PyResult.ok ⟨"no_charge", none⟩) ∧
    (soc < 50 → optim_soc_check env inverter optim_date_ts =
      PyResult.ok ⟨"slow_charge",
        if env.time_now + 1800 < optim_date_ts - 180 then
          some ⟨"optim_soc_check_inv_" ++ inverter, env.time_now + 1800,
            JobAction.socCheck inverter⟩
        else none⟩) := by
  constructor
  · intro h50
    simp [optim_soc_check, hsess, hsoc, hcharge, not_lt.mpr h50]
  · intro h50
    simp only [optim_soc_check, if_neg hsess, hsoc, hcharge]
    rw [if_pos h50]
    simp only [Bool.true_eq_false, if_false, if_neg]
    split <;> rfl

/-- Witness for C7: SOC at 40% two hours before the window charges
slowly and re-schedules at now + 30 minutes. -/
theorem optim_soc_check_behaviour_witness :
    (40 : ℚ) < 50 ∧
      optim_soc_check ⟨0, 100, true, some 40, true⟩ "INV" 10000 =
        PyResult.ok ⟨"slow_charge",
          if (0 : Int) + 1800 < 10000 - 180 then
            some ⟨"optim_soc_check_inv_" ++ "INV", (0 : Int) + 1800,
              JobAction.socCheck "INV"⟩
          else none⟩ :=
  ⟨by norm_num,
    (optim_soc_check_behaviour ⟨0, 100, true, some 40, true⟩ "INV" 10000 40
      (by decide) rfl rfl).2 (by norm_num)⟩

/-- C8: with a valid session, a known mode and a readable setting,
`optim_charge_battery` returns success with zero set-commands whenever
the current setting already equals the mode's target; consequently a
second call performed after any successful call issues no write at
all. -/
theorem optim_charge_battery_idempotent (env env2 : ChargeEnv) (mode : String)
    (target : Int) (setting_value written_value written2 : Int)
    (o : ChargeOutcome)
    (hmode : CHARGE_MODES.lookup mode = some target)
    (hsess : ¬(env.token_ttl < env.time_now ∧ env.login_ok = false))
    (hget : env.get_ok = true)
    (hsess2 : ¬(env2.token_ttl < env2.time_now ∧ env2.login_ok = false))
    (hget2 : env2.get_ok = true) :
    ((setting_value : ℚ) / 10 = (target : ℚ) →
      optim_charge_battery env mode setting_value written_value =
        PyResult.ok ⟨setting_value, 0⟩) ∧
    (optim_charge_battery env mode setting_value written_value =
        PyResult.ok o →
      optim_charge_battery env2 mode o.setting_tenths written2 =
        PyResult.ok ⟨o.setting_tenths, 0⟩) := by
  constructor
  · intro heq
    simp [optim_charge_battery, hsess, hmode, hget, heq]
  · intro hok
    have hkey : (o.setting_tenths : ℚ) / 10 = (target : ℚ) := by
      simp only [optim_charge_battery, if_neg hsess, hmode, hget,
        Bool.true_eq_false, if_false] at hok
      split_ifs at hok with h1 h2 h3 h4 <;>
        first
          | exact PyResult.noConfusion hok
          | (injection hok with h5; subst h5; first | exact h1 | exact h4)
    simp [optim_charge_battery, hsess2, hmode, hget2, hkey]

/-- Witness for C8: a device already at the `slow_charge` target (30 A,
register value 300 tenths) short-circuits with zero writes. -/
theorem optim_charge_battery_idempotent_witness :
    ((300 : Int) : ℚ) / 10 = ((30 : Int) : ℚ) ∧
      optim_charge_battery ⟨0, 100, true, true, true, true⟩ "slow_charge"
        300 300 = PyResult.ok ⟨300, 0⟩ :=
  ⟨by norm_num,
    (optim_charge_battery_idempotent ⟨0, 100, true, true, true, true⟩
      ⟨0, 100, true, true, true, true⟩ "slow_charge" 30 300 300 300 ⟨300, 0⟩
      (by decide) (by decide) rfl (by decide) rfl).1 (by norm_num)⟩
